import Mathlib

/-!
Verification development for the irres-location-scraper repository.

The repository is a small Python scraper with two API layers:
  * `scraper.py` — `IRRESLocationScraper.parse_locations` extracts location
    labels from markup, `IRRESLocationScraper.scrape` wraps fetch+parse in a
    result envelope; `IRRESOfficeImagesScraper.parse_office_images` extracts
    two office image URLs.
  * `api.py` — Flask endpoints over `scraper.py`.
  * `app.py` — FastAPI endpoints over its own `IrresLocationScraper`.

The shallow embedding models parsed markup abstractly: a document is the list
of its elements in document order, each element carrying an attribute list.
(BeautifulSoup parsing of the empty string yields a document with no
elements, so the empty markup string is embedded as the empty element list.)
Python string primitives (`strip`, `lower`, `split`, `in`, `lstrip`) are
re-implemented over `List Char`; character classification (`isdigit`,
`lower`) follows Python semantics on the ASCII plane, which covers every
constant the code tests against. Network fetches are modelled as an
`Except`/`Option` parameter: the code under verification never performs the
fetch itself, it only consumes its outcome.
-/

/-! ## Python string primitives over `List Char` -/

/-- Whitespace characters recognised by Python `str.strip()` / `str.split()`
(ASCII plane). -/
def isPySpace (c : Char) : Bool :=
  c = ' ' || c = '\t' || c = '\n' || c = '\r' || c = '\x0b' || c = '\x0c'

/-- Embedding of Python `str.strip()`: drop leading and trailing whitespace. -/
def pyStrip (s : String) : String :=
  ⟨((s.data.dropWhile isPySpace).reverse.dropWhile isPySpace).reverse⟩

/-- Lower-casing of one character, as Python `str.lower()` acts on the ASCII
plane (the only characters the code compares case-insensitively). -/
def pyLowerChar (c : Char) : Char :=
  if 'A' ≤ c && c ≤ 'Z' then Char.ofNat (c.toNat + 32) else c

/-- Embedding of Python `str.lower()` (ASCII plane). -/
def pyLower (s : String) : String :=
  ⟨s.data.map pyLowerChar⟩

/-- Embedding of Python `str.isdigit()` on a single character. On the ASCII
plane this is exactly the decimal digits 0–9. -/
def pyIsDigit (c : Char) : Bool :=
  '0' ≤ c && c ≤ '9'

/-- Tokeniser behind Python `str.split()` with no argument: split on runs of
whitespace, producing no empty tokens. `acc` is the current token, reversed. -/
def pySplitAux : List Char → List Char → List String
  | [], acc => if acc.isEmpty then [] else [⟨acc.reverse⟩]
  | c :: cs, acc =>
    if isPySpace c then
      if acc.isEmpty then pySplitAux cs [] else (⟨acc.reverse⟩ : String) :: pySplitAux cs []
    else
      pySplitAux cs (c :: acc)

/-- Embedding of Python `str.split()` (no argument). A whitespace-only or
empty string yields `[]`. -/
def pySplit (s : String) : List String :=
  pySplitAux s.data []

/-- Does `pat` occur as a contiguous run at the front of `hay`? -/
def headMatch : List Char → List Char → Bool
  | _, [] => true
  | [], _ :: _ => false
  | c :: cs, p :: ps => c = p && headMatch cs ps

/-- Does `pat` occur as a contiguous run anywhere in `hay`? -/
def hasSub : List Char → List Char → Bool
  | [], pat => pat.isEmpty
  | c :: cs, pat => headMatch (c :: cs) pat || hasSub cs pat

/-- Embedding of Python `pat in s` on strings (substring containment). -/
def pyIn (pat s : String) : Bool :=
  hasSub s.data pat.data

/-- Embedding of Python `s.lstrip('/')`: drop every leading slash. -/
def lstripSlash (s : String) : String :=
  ⟨s.data.dropWhile (fun c => c = '/')⟩

/-- Joining with a separator, as Python `sep.join(xs)`. -/
def pyJoin (sep : String) : List String → String
  | [] => ""
  | [s] => s
  | s :: rest => s ++ sep ++ pyJoin sep rest

/-! ## Markup model shared by both scrapers

A parsed document is its elements in document order; an element is its
attribute list. `BeautifulSoup.find_all(attrs={"data-label": True})` selects
exactly the elements on which the attribute is present. -/

/-- One markup element: its attributes as name/value pairs. -/
structure Element where
  attrs : List (String × String)
deriving DecidableEq

/-- Attribute lookup: `Tag.get(name)` without a default. -/
def Element.attr (e : Element) (name : String) : Option String :=
  (e.attrs.find? (fun p => p.1 = name)).map Prod.snd

/-- Embedding of `element.get(name, default)`. -/
def Element.getAttr (e : Element) (name default : String) : String :=
  (e.attr name).getD default

/-- Attribute presence, the selection criterion of
`find_all(attrs={name: True})`. -/
def Element.hasAttr (e : Element) (name : String) : Bool :=
  (e.attr name).isSome

/-! ## `IRRESLocationScraper.parse_locations` (scraper.py lines 78–116) -/

/-- The fixed exclusion set `excluded_labels` of scraper.py lines 93–97. -/
def excluded_labels : List String :=
  ["appartement", "huis", "grond", "contact",
   "droomwoning", "nieuwbouw", "verkocht", "verkopen",
   "te-koop", "aanbod", "rekrutering"]

/-- The filter of scraper.py lines 106–109 applied to an already-trimmed
label: non-empty, lower-case not in the exclusion set, no `€`, no digit. -/
def keepLabel (label : String) : Bool :=
  !label.isEmpty &&
  !(excluded_labels.contains (pyLower label)) &&
  !(label.data.contains '€') &&
  !(label.data.any pyIsDigit)

/-- The string order used by Python `sorted` on `str`: lexicographic by the
underlying code points (`Char` values of `String.data`). -/
def strLe (a b : String) : Prop :=
  a.data ≤ b.data

instance : DecidableRel strLe := fun a b => inferInstanceAs (Decidable (a.data ≤ b.data))

/-- Embedding of `IRRESLocationScraper.parse_locations`: select the elements
carrying `data-label`, trim each label, keep those passing the filter,
deduplicate (the Python `set`), and sort ascending (Python `sorted`). -/
def parse_locations (soup : List Element) : List String :=
  let elements := soup.filter (fun e => e.hasAttr "data-label")
  let labels := elements.map (fun e => pyStrip (e.getAttr "data-label" ""))
  List.insertionSort strLe (labels.filter keepLabel).dedup

/-! ## `IRRESLocationScraper.scrape` / state (scraper.py lines 118–150) -/

/-- The envelope dict returned by `IRRESLocationScraper.scrape`. -/
structure ScrapeResult where
  locations : List String
  count : Nat
  status : String
  error : Option String
deriving DecidableEq

/-- The result of `fetch_page`, supplied as a parameter: either the parsed
document of the fetched markup, or the message of the raised request
exception. -/
abbrev FetchOutcome := Except String (List Element)

/-- Embedding of `IRRESLocationScraper.scrape`. The second component of the
result is the instance attribute `self.locations` after the call, threaded
explicitly from the value `stored` it had before the call; `scrape` assigns
it only in the success branch. The `except Exception` of lines 134–141 is
total by construction here: the error branch returns the error envelope
instead of propagating. -/
def scrape (fetch : FetchOutcome) (stored : List String) :
    ScrapeResult × List String :=
  match fetch with
  | .ok soup =>
    let locations := parse_locations soup
    (⟨locations, locations.length, "success", none⟩, locations)
  | .error e =>
    (⟨[], 0, "error", some e⟩, stored)

/-- The constructor `IRRESLocationScraper.__init__` sets `self.locations`
to the empty list. -/
def initLocations : List String := []

/-- Embedding of `IRRESLocationScraper.get_locations`: returns the stored
instance attribute. -/
def get_locations (stored : List String) : List String :=
  stored

/-- Embedding of `get_irres_locations`: a fresh scraper (stored list empty)
is created and scraped; only the envelope is returned. -/
def get_irres_locations (fetch : FetchOutcome) : ScrapeResult :=
  (scrape fetch initLocations).1

/-! ## Flask endpoint `GET /api/locations` (api.py lines 42–84)

`get_irres_locations` is total (the `except` in `scrape` returns an envelope
instead of raising), and nothing else in the handler body raises, so the
handler's own `except Exception` branch (lines 78–84, HTTP 500) is
unreachable and the embedding is a total function. -/

/-- A response of the `/api/locations` handler: the JSON branch with its HTTP
code, envelope status, locations and count, or the CSV branch with its HTTP
code and body. -/
inductive ApiLocationsResponse where
  | json (code : Nat) (status : String) (locations : List String) (count : Nat)
  | csv (code : Nat) (body : String)
deriving DecidableEq

/-- HTTP status code of either branch. -/
def ApiLocationsResponse.httpCode : ApiLocationsResponse → Nat
  | .json c _ _ _ => c
  | .csv c _ => c

/-- Embedding of `format_csv_response` (api.py lines 137–155): header line
`location` followed by one name per line, HTTP 200. -/
def format_csv_response (locations : List String) : ApiLocationsResponse :=
  .csv 200 ("location\n" ++ pyJoin "\n" locations)

/-- Embedding of the `/api/locations` handler `get_locations` of api.py.
`fmt` is `request.args.get('format', 'json')`, i.e. the query parameter with
its default already applied. The handler reads `result['locations']` but
never `result['status']`: both branches answer HTTP 200 with a `"success"`
envelope regardless of the fetch outcome. -/
def api_get_locations (fetch : FetchOutcome) (fmt : String) : ApiLocationsResponse :=
  let result := get_irres_locations fetch
  if pyLower fmt = "csv" then
    format_csv_response result.locations
  else
    .json 200 "success" result.locations result.locations.length

/-! ## `IRRESOfficeImagesScraper.parse_office_images` (scraper.py 206–242) -/

/-- The `img` tag nested in a picture element: its `srcset` and `alt`
attributes, each possibly absent. -/
structure Img where
  srcset : Option String
  alt : Option String
deriving DecidableEq

/-- A `picture` element: `picture.find('img')` yields its first nested img
tag, or none. -/
structure Picture where
  img : Option Img
deriving DecidableEq

/-- The office dictionary: an insertion-ordered association list, as a Python
dict. -/
abbrev ImageDict := List (String × String)

/-- Python dict assignment `d[k] = v`: overwrite in place when the key is
present, append otherwise. -/
def dictInsert (d : ImageDict) (k v : String) : ImageDict :=
  if (d.map Prod.fst).contains k then
    d.map (fun p => if p.1 = k then (k, v) else p)
  else
    d ++ [(k, v)]

/-- Python dict lookup `d.get(k)`. -/
def dictLookup (d : ImageDict) (k : String) : Option String :=
  (d.find? (fun p => p.1 = k)).map Prod.snd

/-- The if/elif classification of scraper.py lines 236–239, applied to the
already-lstripped first srcset token and the lower-cased alt text: the key
whose entry this image assigns, if any. -/
def classify (url alt : String) : Option String :=
  if pyIn "7723384" url || pyIn "kerstgevel" url || pyIn "latem" alt then
    some "IrresLatemImage"
  else if pyIn "7723383" url || pyIn "destelbergen" url then
    some "IrresDestelbergenImage"
  else
    none

/-- The body of the `for picture in picture_elements` loop (scraper.py lines
222–239) for one picture element. `Except` models the possible Python
exception: when `srcset` is truthy but `srcset.split()` has no token,
`srcset.split()[0]` raises `IndexError`. -/
def processPicture (images : ImageDict) (pic : Picture) : Except String ImageDict :=
  match pic.img with
  | none => .ok images
  | some img =>
    let srcset := img.srcset.getD ""
    let alt := pyLower (img.alt.getD "")
    if srcset.isEmpty then
      .ok images
    else
      match pySplit srcset with
      | [] => .error "IndexError: list index out of range"
      | tok :: _ =>
        let url := lstripSlash tok
        match classify url alt with
        | some k => .ok (dictInsert images k ("https://irres.be/" ++ url))
        | none => .ok images

/-- The loop of `parse_office_images` over the remaining picture elements,
threading the dict. -/
def parseOfficeImagesAux (images : ImageDict) : List Picture → Except String ImageDict
  | [] => .ok images
  | pic :: rest =>
    match processPicture images pic with
    | .ok d => parseOfficeImagesAux d rest
    | .error e => .error e

/-- Embedding of `IRRESOfficeImagesScraper.parse_office_images`: fold the
per-picture loop body over the document's picture elements, starting from
the empty dict. An `.error` value is a raised Python exception escaping the
method. -/
def parse_office_images (pics : List Picture) : Except String ImageDict :=
  parseOfficeImagesAux [] pics

/-! ## FastAPI layer (app.py)

`IrresLocationScraper.fetch_page` returns `None` on failure; `extract_locations`
looks for the `ul` whose class contains `search-values` and reads its `li`
children. The fetch outcome is modelled as `Option (Option (List Li))`:
`none` for a failed fetch, `some none` for markup without the target `ul`,
`some (some items)` for the `li` elements of the found `ul`. -/

/-- One `li` element of the location filter: its two data attributes and its
stripped display text. -/
structure Li where
  dataLabel : Option String
  dataValue : Option String
  displayText : String
deriving DecidableEq

/-- The dict `extract_locations` builds per `li` (app.py lines 75–79). -/
structure LocationData where
  label : String
  value : String
  display_text : String
deriving DecidableEq

/-- Embedding of `IrresLocationScraper.extract_locations` (app.py lines
51–85): no target `ul` yields `[]`; otherwise keep each `li` whose trimmed
label and value are both non-empty. -/
def extract_locations (ul : Option (List Li)) : List LocationData :=
  match ul with
  | none => []
  | some items =>
    items.filterMap (fun li =>
      let l := pyStrip (li.dataLabel.getD "")
      let v := pyStrip (li.dataValue.getD "")
      if !l.isEmpty && !v.isEmpty then
        some ⟨l, v, li.displayText⟩
      else
        none)

/-- Embedding of `IrresLocationScraper.get_locations` (app.py lines 87–100):
a failed fetch yields `[]`, otherwise the extraction result. -/
def app_scraper_get_locations (fetch : Option (Option (List Li))) : List LocationData :=
  match fetch with
  | none => []
  | some ul => extract_locations ul

/-- A response of the `/locations/labels` handler: HTTP 200 with the label
list, or a raised `HTTPException` with its status code and detail. -/
inductive LabelsResponse where
  | ok (labels : List String)
  | httpError (code : Nat) (detail : String)
deriving DecidableEq

/-- Embedding of the `/locations/labels` handler `get_location_labels`
(app.py lines 149–168). When the result is empty the handler raises
`HTTPException(404, "No locations found or error fetching data")` inside the
`try` block; `HTTPException` subclasses `Exception` (starlette), so the
handler's own `except Exception as e` catches it and re-raises
`HTTPException(500, detail=str(e))`, where starlette's `str` renders the
caught exception as `"404: <detail>"`. The 404 therefore never reaches the
client: an empty result produces HTTP 500. -/
def get_location_labels (fetch : Option (Option (List Li))) : LabelsResponse :=
  let locations := app_scraper_get_locations fetch
  if locations.isEmpty then
    .httpError 500 "404: No locations found or error fetching data"
  else
    .ok (locations.map (fun loc => loc.label))

/-! ## Lemmas about `parse_locations` -/

instance : IsTotal String strLe := ⟨fun a b => le_total a.data b.data⟩

instance : IsTrans String strLe := ⟨fun _ _ _ h h' => le_trans h h'⟩

/-- Strict code-point order on strings: lexicographic comparison of the
underlying code-point sequences. -/
def strLt (a b : String) : Prop :=
  List.Lex (· < ·) a.data b.data

/-- Membership in the output of `parse_locations`: exactly the strings that
arise as the trimmed `data-label` value of some element of the document and
pass the filter. -/
theorem mem_parse_locations {m : List Element} {s : String} :
    s ∈ parse_locations m ↔
      (∃ e ∈ m, e.hasAttr "data-label" = true ∧
        pyStrip (e.getAttr "data-label" "") = s) ∧ keepLabel s = true := by
  simp only [parse_locations]
  rw [(List.perm_insertionSort strLe _).mem_iff, List.mem_dedup, List.mem_filter,
    List.mem_map]
  constructor
  · rintro ⟨⟨e, he, hs⟩, hk⟩
    rw [List.mem_filter] at he
    exact ⟨⟨e, he.1, he.2, hs⟩, hk⟩
  · rintro ⟨⟨e, he, ha, hs⟩, hk⟩
    exact ⟨⟨e, List.mem_filter.mpr ⟨he, ha⟩, hs⟩, hk⟩

/-- Unfolding of the four tests of the label filter. -/
theorem keepLabel_iff {t : String} :
    keepLabel t = true ↔
      t.isEmpty = false ∧ excluded_labels.contains (pyLower t) = false ∧
      t.data.contains '€' = false ∧ t.data.any pyIsDigit = false := by
  simp [keepLabel, Bool.and_eq_true, Bool.not_eq_true', and_assoc]

/-- C1: for every markup input, `parse_locations` returns a list with no
duplicate entries, sorted in ascending lexicographic order by the strings'
underlying code points (`strLt` compares the code-point sequences
lexicographically), and the output is deterministic given the same input
(the embedding is a pure function of the document). -/
theorem parse_locations_sorted_nodup_deterministic :
    ∀ m : List Element, (parse_locations m).Nodup ∧
      List.Sorted strLt (parse_locations m) ∧
      ∀ m' : List Element, m = m' → parse_locations m = parse_locations m' := by
  intro m
  have hnodup : (parse_locations m).Nodup := by
    simp only [parse_locations]
    exact (List.perm_insertionSort strLe _).nodup_iff.mpr (List.nodup_dedup _)
  have hsorted : List.Sorted strLe (parse_locations m) := by
    simp only [parse_locations]
    exact List.sorted_insertionSort strLe _
  refine ⟨hnodup, ?_, fun m' h => h ▸ rfl⟩
  have hp : List.Pairwise (fun a b => strLe a b ∧ a ≠ b) (parse_locations m) :=
    List.Pairwise.and hsorted hnodup
  exact List.Pairwise.imp
    (fun h => lt_of_le_of_ne h.1 (fun hd => h.2 (String.ext hd))) hp

/-- Witness for C1 at a concrete document. -/
theorem parse_locations_sorted_nodup_deterministic_witness :
    (parse_locations [⟨[("data-label", "Gent")]⟩, ⟨[("data-label", "Aalst")]⟩]).Nodup ∧
    List.Sorted strLt (parse_locations [⟨[("data-label", "Gent")]⟩, ⟨[("data-label", "Aalst")]⟩]) ∧
    parse_locations [⟨[("data-label", "Gent")]⟩, ⟨[("data-label", "Aalst")]⟩] =
      parse_locations [⟨[("data-label", "Gent")]⟩, ⟨[("data-label", "Aalst")]⟩] :=
  ⟨(parse_locations_sorted_nodup_deterministic _).1,
   (parse_locations_sorted_nodup_deterministic _).2.1,
   (parse_locations_sorted_nodup_deterministic
     [⟨[("data-label", "Gent")]⟩, ⟨[("data-label", "Aalst")]⟩]).2.2 _ rfl⟩

/-- C2: for every element carrying the `data-label` attribute, its trimmed
label is absent from the output whenever it is empty, its lower-cased value
is in the exclusion set, it contains `€`, or it contains a decimal digit;
a label failing none of these tests is present in the output. -/
theorem parse_locations_exclusion :
    ∀ (m : List Element) (e : Element), e ∈ m → e.hasAttr "data-label" = true →
      ∀ t : String, t = pyStrip (e.getAttr "data-label" "") →
      ((t.isEmpty = true ∨ excluded_labels.contains (pyLower t) = true ∨
          t.data.contains '€' = true ∨ t.data.any pyIsDigit = true) →
        t ∉ parse_locations m) ∧
      (t.isEmpty = false → excluded_labels.contains (pyLower t) = false →
        t.data.contains '€' = false → t.data.any pyIsDigit = false →
        t ∈ parse_locations m) := by
  intro m e he ha t ht
  constructor
  · intro hbad hmem
    obtain ⟨h1, h2, h3, h4⟩ := keepLabel_iff.mp (mem_parse_locations.mp hmem).2
    rcases hbad with h | h | h | h
    · rw [h] at h1; exact Bool.noConfusion h1
    · rw [h] at h2; exact Bool.noConfusion h2
    · rw [h] at h3; exact Bool.noConfusion h3
    · rw [h] at h4; exact Bool.noConfusion h4
  · intro h1 h2 h3 h4
    exact mem_parse_locations.mpr
      ⟨⟨e, he, ha, ht.symm⟩, keepLabel_iff.mpr ⟨h1, h2, h3, h4⟩⟩

/-- Witness for C2: an excluded label (`Huis`) is absent, a surviving label
(`Gent`, from the untrimmed attribute value `" Gent "`) is present. -/
theorem parse_locations_exclusion_witness :
    "Huis" ∉ parse_locations [⟨[("data-label", "Huis")]⟩, ⟨[("data-label", " Gent ")]⟩] ∧
    "Gent" ∈ parse_locations [⟨[("data-label", "Huis")]⟩, ⟨[("data-label", " Gent ")]⟩] :=
  ⟨(parse_locations_exclusion _ ⟨[("data-label", "Huis")]⟩ (by decide) (by decide)
      "Huis" (by decide)).1 (by decide),
   (parse_locations_exclusion _ ⟨[("data-label", " Gent ")]⟩ (by decide) (by decide)
      "Gent" (by decide)).2 (by decide) (by decide) (by decide) (by decide)⟩

/-- C8: the empty markup string parses to a document with no elements, and
`parse_locations` maps it — and any document in which no element carries the
`data-label` attribute — to the empty list; totality of the embedding
reflects that the code raises nothing on such input. -/
theorem parse_locations_empty_input :
    parse_locations ([] : List Element) = [] ∧
    ∀ m : List Element, (∀ e ∈ m, e.hasAttr "data-label" = false) →
      parse_locations m = [] := by
  refine ⟨rfl, fun m h => ?_⟩
  rw [List.eq_nil_iff_forall_not_mem]
  intro s hs
  obtain ⟨⟨e, he, ha, _⟩, _⟩ := mem_parse_locations.mp hs
  rw [h e he] at ha
  cases ha

/-- Witness for C8: a document whose only element has no `data-label`. -/
theorem parse_locations_empty_input_witness :
    parse_locations [⟨[("class", "nav")]⟩] = [] :=
  parse_locations_empty_input.2 _ (by decide)

/-- C10: every output string of `parse_locations` is character-for-character
the trimmed `data-label` value of some element — no normalization or accent
removal is applied on the extraction path (`normalize_text` is never
invoked) — and labels differing only in diacritics or letter case remain
distinct output entries, as the concrete document with `Évergem`/`Evergem`
and `GENT`/`Gent` shows. -/
theorem parse_locations_verbatim_labels :
    (∀ (m : List Element) (s : String), s ∈ parse_locations m →
      ∃ e ∈ m, e.hasAttr "data-label" = true ∧
        s = pyStrip (e.getAttr "data-label" "")) ∧
    parse_locations [⟨[("data-label", "Évergem")]⟩, ⟨[("data-label", "Evergem")]⟩,
        ⟨[("data-label", "GENT")]⟩, ⟨[("data-label", "Gent")]⟩] =
      ["Evergem", "GENT", "Gent", "Évergem"] := by
  constructor
  · intro m s hs
    obtain ⟨⟨e, he, ha, hsv⟩, _⟩ := mem_parse_locations.mp hs
    exact ⟨e, he, ha, hsv.symm⟩
  · decide

/-- Witness for C10: the output entry `Gent` is the trimmed value of the
concrete element's attribute. -/
theorem parse_locations_verbatim_labels_witness :
    ∃ e ∈ [⟨[("data-label", " Gent ")]⟩, ⟨[("class", "x")]⟩],
      Element.hasAttr e "data-label" = true ∧
      "Gent" = pyStrip (Element.getAttr e "data-label" "") :=
  parse_locations_verbatim_labels.1 _ "Gent" (by decide)

/-! ## Claims about `scrape` and the Flask `/api/locations` handler -/

/-- C4: a fetch that raises a network error makes `scrape` return the error
envelope — status `"error"`, empty locations list, count 0, the exception's
message — for every prior stored state; the embedding is total, reflecting
that the `except Exception` of scraper.py lines 134–141 converts the raised
exception into a return value instead of letting it propagate. -/
theorem scrape_error_envelope :
    ∀ (e : String) (stored : List String),
      (scrape (.error e) stored).1 = ⟨[], 0, "error", some e⟩ :=
  fun _ _ => rfl

/-- C9: the stored `self.locations` is left unchanged by a failing `scrape`
and is overwritten with the parse result by a successful one;
`get_locations` returns the stored list, and a fresh instance stores the
empty list — so after any failure `get_locations` still reports the result
of the most recent successful scrape, or `[]` if none has succeeded. -/
theorem scrape_stored_locations :
    (∀ (e : String) (stored : List String), (scrape (.error e) stored).2 = stored) ∧
    (∀ (soup : List Element) (stored : List String),
      (scrape (.ok soup) stored).2 = parse_locations soup) ∧
    (∀ stored : List String, get_locations stored = stored) ∧
    initLocations = [] :=
  ⟨fun _ _ => rfl, fun _ _ => rfl, fun _ => rfl, rfl⟩

/-- Counterexample to C3: at the concrete failing fetch outcome
`error "Connection timed out"`, the `/api/locations` handler answers
HTTP 200 with a `"success"` envelope and an empty list — not the HTTP 500
the claim demands for a fetch failure. -/
theorem api_get_locations_error_not_500 :
    api_get_locations (.error "Connection timed out") "json" =
      .json 200 "success" [] 0 ∧
    (api_get_locations (.error "Connection timed out") "json").httpCode ≠ 500 := by
  exact ⟨rfl, by decide⟩

/-- C3 (amended): the `/api/locations` handler always answers HTTP 200: a
fetch or parse failure is absorbed by `scrape` into an error envelope whose
locations list is empty, and the handler — which reads only
`result['locations']` — serializes that empty list in a 200 response
(`"success"` envelope in the JSON branch, `location`-header CSV in the CSV
branch); its own 500 branch is unreachable because `get_irres_locations`
never raises. -/
theorem api_get_locations_always_200 :
    (∀ (fetch : FetchOutcome) (fmt : String),
      (api_get_locations fetch fmt).httpCode = 200) ∧
    (∀ e : String, api_get_locations (.error e) "json" = .json 200 "success" [] 0) ∧
    (∀ e : String, api_get_locations (.error e) "csv" = .csv 200 "location\n") := by
  refine ⟨fun fetch fmt => ?_, fun e => rfl, fun e => rfl⟩
  cases fetch <;>
    · simp only [api_get_locations, get_irres_locations, scrape, format_csv_response]
      split <;> rfl

/-! ## The FastAPI `/locations/labels` handler (app.py) -/

/-- C7: evaluation of the `/locations/labels` handler at inputs with an
empty extraction result — a failed fetch and a page without the
`search-values` list — and at a non-empty one. The `HTTPException(404)`
raised for an empty result is itself an `Exception`, so the handler's
`except Exception` catches it and re-raises it as HTTP 500: the 404 the
code constructs (and the spec promises) never reaches the client. -/
theorem get_location_labels_empty_is_500 :
    get_location_labels none =
      .httpError 500 "404: No locations found or error fetching data" ∧
    get_location_labels (some none) =
      .httpError 500 "404: No locations found or error fetching data" ∧
    get_location_labels (some (some [⟨some "Gent", some "gent", "Gent"⟩])) =
      .ok ["Gent"] := by
  exact ⟨rfl, rfl, by decide⟩

/-! ## Lemmas about `parse_office_images` -/

/-- Keys-and-contains bridge for association-list keys. -/
theorem keys_contains_iff {l : List String} {a : String} :
    l.contains a = true ↔ a ∈ l :=
  List.elem_iff

/-- Overwriting an existing key leaves the key list unchanged. -/
theorem map_fst_overwrite (d : ImageDict) (k v : String) :
    (d.map (fun p => if p.1 = k then (k, v) else p)).map Prod.fst =
      d.map Prod.fst := by
  induction d with
  | nil => rfl
  | cons p ps ih =>
    simp only [List.map_cons, ih]
    by_cases hp : p.1 = k
    · simp [hp]
    · simp [hp]

/-- Key list after a Python dict assignment. -/
theorem dictInsert_map_fst (d : ImageDict) (k v : String) :
    (dictInsert d k v).map Prod.fst =
      if (d.map Prod.fst).contains k then d.map Prod.fst
      else d.map Prod.fst ++ [k] := by
  unfold dictInsert
  split
  · exact map_fst_overwrite d k v
  · simp

/-- Dict assignment preserves distinctness of keys. -/
theorem dictInsert_keys_nodup {d : ImageDict} (k v : String)
    (h : (d.map Prod.fst).Nodup) : ((dictInsert d k v).map Prod.fst).Nodup := by
  rw [dictInsert_map_fst]
  split
  · exact h
  · rename_i hc
    rw [List.nodup_append]
    refine ⟨h, List.nodup_singleton _, ?_⟩
    intro a ha hb
    rw [List.mem_singleton] at hb
    subst hb
    exact hc (keys_contains_iff.mpr ha)

/-- Finding an overwritten key yields the new pair. -/
theorem find?_overwrite (d : ImageDict) (k v : String) (h : k ∈ d.map Prod.fst) :
    (d.map (fun p => if p.1 = k then (k, v) else p)).find? (fun p => p.1 = k) =
      some (k, v) := by
  induction d with
  | nil => cases h
  | cons p ps ih =>
    simp only [List.map_cons]
    by_cases hp : p.1 = k
    · rw [if_pos hp, List.find?_cons_of_pos _ (by simp)]
    · rw [if_neg hp, List.find?_cons_of_neg _ (by simp [hp])]
      apply ih
      rw [List.map_cons] at h
      rcases List.mem_cons.mp h with h' | h'
      · exact absurd h'.symm hp
      · exact h'

/-- Finding a freshly appended key yields the new pair. -/
theorem find?_append_new (d : ImageDict) (k v : String) (h : k ∉ d.map Prod.fst) :
    (d ++ [(k, v)]).find? (fun p => p.1 = k) = some (k, v) := by
  rw [List.find?_append]
  have hn : d.find? (fun p => p.1 = k) = none := by
    rw [List.find?_eq_none]
    intro x hx hpx
    exact h (List.mem_map.mpr ⟨x, hx, by simpa using hpx⟩)
  rw [hn]
  simp

/-- Python dict semantics: after `d[k] = v`, looking up `k` yields `v`. -/
theorem dictLookup_dictInsert (d : ImageDict) (k v : String) :
    dictLookup (dictInsert d k v) k = some v := by
  unfold dictLookup dictInsert
  split
  · rename_i hc
    rw [find?_overwrite d k v (keys_contains_iff.mp hc)]
    rfl
  · rename_i hc
    rw [find?_append_new d k v (fun hm => hc (keys_contains_iff.mpr hm))]
    rfl

/-- A successful loop-body step either leaves the dict unchanged or performs
one dict assignment. -/
theorem processPicture_ok_cases {d d₂ : ImageDict} {pic : Picture}
    (h : processPicture d pic = .ok d₂) :
    d₂ = d ∨ ∃ k v, d₂ = dictInsert d k v := by
  obtain ⟨_ | img⟩ := pic
  · cases h
    exact .inl rfl
  · simp only [processPicture] at h
    split at h
    · cases h
      exact .inl rfl
    · split at h
      · cases h
      · split at h
        · cases h
          exact .inr ⟨_, _, rfl⟩
        · cases h
          exact .inl rfl

/-- The loop preserves distinctness of the dict's keys. -/
theorem parseOfficeImagesAux_keys_nodup :
    ∀ (pics : List Picture) (d d' : ImageDict),
      (d.map Prod.fst).Nodup → parseOfficeImagesAux d pics = .ok d' →
      (d'.map Prod.fst).Nodup := by
  intro pics
  induction pics with
  | nil =>
    intro d d' hd h
    cases h
    exact hd
  | cons p rest ih =>
    intro d d' hd h
    simp only [parseOfficeImagesAux] at h
    cases hp : processPicture d p with
    | error e => rw [hp] at h; cases h
    | ok d₂ =>
      rw [hp] at h
      rcases processPicture_ok_cases hp with heq | ⟨k, v, hkv⟩
      · subst heq
        exact ih d₂ d' hd h
      · subst hkv
        exact ih _ d' (dictInsert_keys_nodup k v hd) h

/-- Running the loop over an appended document processes the suffix from the
dict the prefix produced. -/
theorem parseOfficeImagesAux_append (pics more : List Picture) (d : ImageDict) :
    parseOfficeImagesAux d (pics ++ more) =
      (parseOfficeImagesAux d pics).bind (fun d' => parseOfficeImagesAux d' more) := by
  induction pics generalizing d with
  | nil => rfl
  | cons p rest ih =>
    simp only [List.cons_append, parseOfficeImagesAux]
    cases processPicture d p with
    | ok d₂ => exact ih d₂
    | error e => rfl

/-- A picture element that matches office `k`: its img tag is present, its
srcset is truthy with first token `tok`, the slash-stripped token is `url`,
and the if/elif classification of the url and lower-cased alt text selects
key `k`. -/
def picYields (pic : Picture) (k url : String) : Prop :=
  ∃ img tok rest, pic.img = some img ∧ (img.srcset.getD "").isEmpty = false ∧
    pySplit (img.srcset.getD "") = tok :: rest ∧ url = lstripSlash tok ∧
    classify url (pyLower (img.alt.getD "")) = some k

/-- A matching picture element performs exactly one dict assignment with the
absolute URL. -/
theorem processPicture_of_picYields {pic : Picture} {k url : String}
    (h : picYields pic k url) (d : ImageDict) :
    processPicture d pic = .ok (dictInsert d k ("https://irres.be/" ++ url)) := by
  obtain ⟨img, tok, rest, h1, h2, h3, h4, h5⟩ := h
  subst h4
  simp only [processPicture]
  rw [h1]
  simp only [h2, Bool.false_eq_true, if_false]
  rw [h3]
  show (match classify (lstripSlash tok) (pyLower (img.alt.getD "")) with
    | some k => Except.ok (dictInsert d k ("https://irres.be/" ++ lstripSlash tok))
    | none => Except.ok d) = _
  rw [h5]

/-- A picture element with no usable source-set: either no nested img tag,
or an img whose `srcset` attribute is missing or the empty string (the falsy
case that the `if srcset:` guard skips). -/
def srcsetAbsent (pic : Picture) : Bool :=
  match pic.img with
  | none => true
  | some img => (img.srcset.getD "").isEmpty

/-- Counterexample to C5: a picture element whose img is otherwise matching
(alt text contains `latem`) but whose `srcset` attribute is present and
consists only of whitespace. `srcset` is truthy, `srcset.split()` has no
token, and `srcset.split()[0]` raises `IndexError`: `parse_office_images`
fails instead of completing without an entry. -/
theorem parse_office_images_whitespace_srcset_raises :
    parse_office_images [⟨some ⟨some " ", some "Latem"⟩⟩] =
      .error "IndexError: list index out of range" := rfl

/-- C5 (amended): an otherwise-matching image element whose source-set
attribute is missing or empty contributes no entry to the office-image
mapping and causes no failure — the loop body returns the dict unchanged,
and a document all of whose picture elements lack a usable source-set
parses to the empty mapping. (A source-set that is present but whitespace-only
instead makes `parse_office_images` raise an index error, which
`IRRESOfficeImagesScraper.scrape` converts into its error envelope.) -/
theorem parse_office_images_missing_srcset_ok :
    (∀ (d : ImageDict) (pic : Picture), srcsetAbsent pic = true →
      processPicture d pic = .ok d) ∧
    (∀ pics : List Picture, (∀ p ∈ pics, srcsetAbsent p = true) →
      parse_office_images pics = .ok []) := by
  have hstep : ∀ (d : ImageDict) (pic : Picture), srcsetAbsent pic = true →
      processPicture d pic = .ok d := by
    intro d pic h
    obtain ⟨_ | img⟩ := pic
    · rfl
    · simp only [srcsetAbsent] at h
      simp [processPicture, h]
  refine ⟨hstep, fun pics h => ?_⟩
  have haux : ∀ (ps : List Picture) (d : ImageDict),
      (∀ p ∈ ps, srcsetAbsent p = true) → parseOfficeImagesAux d ps = .ok d := by
    intro ps
    induction ps with
    | nil => intro d _; rfl
    | cons p rest ih =>
      intro d hall
      simp only [parseOfficeImagesAux]
      rw [hstep d p (hall p (List.mem_cons_self p rest))]
      exact ih d (fun q hq => hall q (List.mem_cons_of_mem p hq))
  exact haux pics [] h

/-- Witness for C5 (amended) at concrete inputs: an img with alt `latem` but
no srcset leaves a non-empty dict unchanged, and a document of three
pictures without usable srcsets (no img; no srcset attribute; empty srcset)
yields the empty mapping. -/
theorem parse_office_images_missing_srcset_ok_witness :
    processPicture [("IrresLatemImage", "https://irres.be/x.jpg")]
        ⟨some ⟨none, some "latem"⟩⟩ =
      .ok [("IrresLatemImage", "https://irres.be/x.jpg")] ∧
    parse_office_images [⟨none⟩, ⟨some ⟨none, some "latem"⟩⟩, ⟨some ⟨some "", none⟩⟩] =
      .ok [] :=
  ⟨parse_office_images_missing_srcset_ok.1 _ _ (by decide),
   parse_office_images_missing_srcset_ok.2 _ (by decide)⟩

/-- C6: the office-image mapping has distinct keys (at most one entry per
key), and appending two picture elements that both match the same office key
to any successfully parsed document makes the mapping record the absolute
URL derived from the *last* matching element in document order. -/
theorem parse_office_images_last_match_wins :
    (∀ (pics : List Picture) (d : ImageDict),
      parse_office_images pics = .ok d → (d.map Prod.fst).Nodup) ∧
    (∀ (pics : List Picture) (d : ImageDict) (p₁ p₂ : Picture) (k u₁ u₂ : String),
      parse_office_images pics = .ok d →
      picYields p₁ k u₁ → picYields p₂ k u₂ →
      ∃ d' : ImageDict, parse_office_images (pics ++ [p₁, p₂]) = .ok d' ∧
        dictLookup d' k = some ("https://irres.be/" ++ u₂)) := by
  constructor
  · intro pics d h
    exact parseOfficeImagesAux_keys_nodup pics [] d (by simp) h
  · intro pics d p₁ p₂ k u₁ u₂ h hy₁ hy₂
    refine ⟨dictInsert (dictInsert d k ("https://irres.be/" ++ u₁))
        k ("https://irres.be/" ++ u₂), ?_, dictLookup_dictInsert _ _ _⟩
    unfold parse_office_images at h ⊢
    rw [parseOfficeImagesAux_append, h]
    show parseOfficeImagesAux d [p₁, p₂] = _
    simp only [parseOfficeImagesAux]
    rw [processPicture_of_picYields hy₁]
    show (match processPicture (dictInsert d k ("https://irres.be/" ++ u₁)) p₂ with
        | Except.ok d => Except.ok d
        | Except.error e => Except.error e) = _
    rw [processPicture_of_picYields hy₂]

/-- Witness for C6: two picture elements that both match office B
(`7723383` in the srcset path); the mapping records the second element's
URL. -/
theorem parse_office_images_last_match_wins_witness :
    ∃ d' : ImageDict,
      parse_office_images [⟨some ⟨some "/img/7723383-a.jpg 800w", none⟩⟩,
          ⟨some ⟨some "/img/7723383-b.jpg 400w", none⟩⟩] = .ok d' ∧
      dictLookup d' "IrresDestelbergenImage" =
        some "https://irres.be/img/7723383-b.jpg" :=
  parse_office_images_last_match_wins.2 [] [] _ _ "IrresDestelbergenImage"
    "img/7723383-a.jpg" "img/7723383-b.jpg" rfl
    ⟨⟨some "/img/7723383-a.jpg 800w", none⟩, "/img/7723383-a.jpg", ["800w"],
      rfl, by decide, by decide, by decide, by decide⟩
    ⟨⟨some "/img/7723383-b.jpg 400w", none⟩, "/img/7723383-b.jpg", ["400w"],
      rfl, by decide, by decide, by decide, by decide⟩
